import Mathlib

/-!
Verification of the interactive building-footprint editor.

The development shallowly embeds the editing core of the application:
the Building data model (store/RoofBuilderContext.tsx), the corner- and
edge-handle resize logic, the rotation drag handler and the move drag
handler (scene/gizmos/BuildingEditor.ts, scene/setupGizmoManager.ts),
the ridge-height handlers of the elevation views, the placement-click
commit paths (components/main-viewport.tsx), and the store update
function updateBuilding. Pointer coordinates and all geometry are
modelled over the rationals; every definition mirrors its source
function directly.
-/

namespace RoofBuilder

/-- Roof type tag: the RoofType union of RoofBuilderContext.tsx. -/
inductive RoofType where
  | flat
  | dualPitch
deriving DecidableEq, Repr

/-- The Building record of store/RoofBuilderContext.tsx. The position is
the center of the footprint in the ground plane, as a pair (x, z). -/
structure Building where
  id : String
  type : RoofType
  position : ℚ × ℚ
  rotation : ℚ
  width : ℚ
  length : ℚ
  height : ℚ
  ridgeHeight : Option ℚ
  ridgeOffset : Option ℚ
deriving DecidableEq, Repr

/-- Math.sign of JavaScript restricted to rationals: 1, -1 or 0. -/
def qsign (x : ℚ) : ℚ :=
  if 0 < x then 1 else if x < 0 then -1 else 0

/-- Per-axis corner resize of BuildingEditor._addCornerDragBehavior
(BuildingEditor.ts lines 228-251): the candidate dimension is twice the
absolute local drag coordinate; if the drag coordinate has the same sign
as the corner coordinate and larger magnitude, the result is the maximum
of the candidate and the initial dimension, otherwise the candidate. -/
def cornerResizeAxis (localDrag localCorner initial : ℚ) : ℚ :=
  let newDim := 2 * |localDrag|
  if qsign localDrag = qsign localCorner ∧ |localCorner| < |localDrag|
  then max newDim initial
  else newDim

/-- Per-axis edge resize of BuildingEditor._addEdgeDragBehavior
(BuildingEditor.ts lines 342-357). The edge sign defaults to 1 when the
sign of the local edge coordinate is 0, mirroring the source expression
Math.sign(localEdgePos.x) || 1. -/
def edgeResizeAxis (localDrag localEdge initial : ℚ) : ℚ :=
  let calculated := 2 * |localDrag|
  let edgeSign := if qsign localEdge = 0 then 1 else qsign localEdge
  if qsign localDrag = edgeSign ∧ |localEdge| < |localDrag|
  then max calculated initial
  else calculated

/-- The resize formula as the specification words it: if the sign of the
local drag coordinate equals the sign of the handle coordinate and its
magnitude exceeds the magnitude of the handle coordinate, the new
dimension is max(2 * |localDrag|, initial), otherwise exactly
2 * |localDrag|. -/
def specResizeAxis (localDrag localHandle initial : ℚ) : ℚ :=
  if qsign localDrag = qsign localHandle ∧ |localHandle| < |localDrag|
  then max (2 * |localDrag|) initial
  else 2 * |localDrag|

/-- Final dimensions written by one corner drag-move event
(BuildingEditor.ts lines 228-258): both axes resized, then clamped to
the minimum footprint size 1. -/
def cornerDragDims (localDragX localDragZ localCornerX localCornerZ
    initialWidth initialLength : ℚ) : ℚ × ℚ :=
  (max 1 (cornerResizeAxis localDragX localCornerX initialWidth),
   max 1 (cornerResizeAxis localDragZ localCornerZ initialLength))

/-- Final dimensions written by one x-axis edge drag-move event
(BuildingEditor.ts lines 342-362): width resized, length kept at the
initial value, then both clamped to the minimum size 1. -/
def edgeDragDimsX (localDragX localEdgeX initialWidth initialLength : ℚ) :
    ℚ × ℚ :=
  (max 1 (edgeResizeAxis localDragX localEdgeX initialWidth),
   max 1 initialLength)

/-- Final dimensions written by one z-axis edge drag-move event
(BuildingEditor.ts lines 350-362): length resized, width kept at the
initial value, then both clamped to the minimum size 1. -/
def edgeDragDimsZ (localDragZ localEdgeZ initialWidth initialLength : ℚ) :
    ℚ × ℚ :=
  (max 1 initialWidth,
   max 1 (edgeResizeAxis localDragZ localEdgeZ initialLength))

/-- BuildingEditor._updateBuildingDimensions (BuildingEditor.ts lines
549-554): the only Building fields written are width and length. -/
def updateBuildingDimensions (b : Building) (width length : ℚ) : Building :=
  { b with width := width, length := length }

/-- The Building written by one corner drag-move event: the dimensions
computed by cornerDragDims stored through _updateBuildingDimensions. -/
def cornerDragMoveBuilding (b : Building) (localDragX localDragZ
    localCornerX localCornerZ initialWidth initialLength : ℚ) : Building :=
  let dims := cornerDragDims localDragX localDragZ localCornerX localCornerZ
    initialWidth initialLength
  updateBuildingDimensions b dims.1 dims.2

/-- Axis tag for the edge handles and the move arrow handles. -/
inductive Axis where
  | x
  | z
deriving DecidableEq, Repr

/-- The Building written by one edge drag-move event, for the axis of
the dragged edge handle (BuildingEditor.ts lines 324-366). -/
def edgeDragMoveBuilding (b : Building) (axis : Axis) (localDragX localDragZ
    localEdgeX localEdgeZ initialWidth initialLength : ℚ) : Building :=
  let dims :=
    if axis = Axis.x then edgeDragDimsX localDragX localEdgeX initialWidth initialLength
    else edgeDragDimsZ localDragZ localEdgeZ initialWidth initialLength
  updateBuildingDimensions b dims.1 dims.2

/-- BuildingEditor._updateBuildingRotation (BuildingEditor.ts lines
635-643): the only Building field written is rotation. -/
def updateBuildingRotation (b : Building) (rotation : ℚ) : Building :=
  { b with rotation := rotation }

/-- Per-drag metadata of the rotation handle, as stashed on the handle
mesh by _addRotationDragBehavior (BuildingEditor.ts lines 423-431)
together with the rotation last written to the building. The drag-start
observer stores initialRotation and isDragging := false; the first
drag-move captures initialDragAngle. -/
structure RotationDragState where
  initialRotation : ℚ
  isDragging : Bool
  initialDragAngle : ℚ
  rotation : ℚ
deriving DecidableEq, Repr

/-- Drag-start of the rotation handle (BuildingEditor.ts lines 423-431):
metadata is reset, so the initial drag angle will be captured afresh on
the next drag-move; the building rotation is untouched. -/
def rotationDragStart (currentRotation : ℚ) : RotationDragState :=
  { initialRotation := currentRotation
    isDragging := false
    initialDragAngle := 0
    rotation := currentRotation }

/-- One drag-move of the rotation handle (BuildingEditor.ts lines
433-456). The argument currentAngle is the center-to-pointer angle the
source computes as Math.atan2(dragVector.x, dragVector.z); on the first
move of a drag it is recorded as initialDragAngle, and the rotation
written is initialRotation + (currentAngle - initialDragAngle). -/
def rotationDragMove (s : RotationDragState) (currentAngle : ℚ) :
    RotationDragState :=
  let s' := if s.isDragging then s
    else { s with initialDragAngle := currentAngle, isDragging := true }
  { s' with rotation := s'.initialRotation + (currentAngle - s'.initialDragAngle) }

/-- The rotation-handle drag session: the drag-start snapshot followed
by the drag-move events for the given sequence of pointer angles. -/
def rotationAfterDrag (initialRotation : ℚ) (angles : List ℚ) :
    RotationDragState :=
  angles.foldl rotationDragMove (rotationDragStart initialRotation)

/-- One drag-move of an axis arrow handle of BuildingMoveGizmo
(setupGizmoManager.ts lines 1082-1106): the world delta is constrained
to the arrow axis before being added to the position, and the Building
position is then read back from the mesh. -/
def arrowDragMove (axis : Axis) (pos : ℚ × ℚ) (deltaX deltaZ : ℚ) : ℚ × ℚ :=
  let constrainedX := if axis = Axis.x then deltaX else 0
  let constrainedZ := if axis = Axis.z then deltaZ else 0
  (pos.1 + constrainedX, pos.2 + constrainedZ)

/-- The central drag handle move of BuildingEditor (BuildingEditor.ts
lines 521-535): the full planar delta is added to the position. -/
def centerDragMove (pos : ℚ × ℚ) (deltaX deltaZ : ℚ) : ℚ × ℚ :=
  (pos.1 + deltaX, pos.2 + deltaZ)

/-- The attachment state of a control: BuildingEditor keeps a nullable
_building and a nullable _targetMesh (BuildingEditor.ts lines 49-54);
the mesh is modelled by its presence only. -/
structure EditorState where
  building : Option Building
  hasTargetMesh : Bool
deriving DecidableEq, Repr

/-- BuildingEditor.detach (BuildingEditor.ts lines 736-745): both the
building and the mesh reference are cleared. -/
def detachEditor (_s : EditorState) : EditorState :=
  { building := none, hasTargetMesh := false }

/-- Corner drag-move at the editor level: the handler body runs only
when both the building and the target mesh are present, mirroring the
guard at BuildingEditor.ts lines 208-209; otherwise it returns with no
write. -/
def editorCornerDragMove (s : EditorState) (localDragX localDragZ
    localCornerX localCornerZ initialWidth initialLength : ℚ) : EditorState :=
  match s.building, s.hasTargetMesh with
  | some b, true =>
      { s with building := some (cornerDragMoveBuilding b localDragX localDragZ
          localCornerX localCornerZ initialWidth initialLength) }
  | _, _ => s

/-- Edge drag-move at the editor level, with the same presence guard
(BuildingEditor.ts line 325). -/
def editorEdgeDragMove (s : EditorState) (axis : Axis) (localDragX localDragZ
    localEdgeX localEdgeZ initialWidth initialLength : ℚ) : EditorState :=
  match s.building, s.hasTargetMesh with
  | some b, true =>
      { s with building := some (edgeDragMoveBuilding b axis localDragX localDragZ
          localEdgeX localEdgeZ initialWidth initialLength) }
  | _, _ => s

/-- Rotation drag-move at the editor level, with the same presence guard
(BuildingEditor.ts line 434): the new rotation is computed from the
per-drag metadata and written through _updateBuildingRotation. -/
def editorRotationDragMove (s : EditorState) (initialRotation initialDragAngle
    currentAngle : ℚ) : EditorState :=
  match s.building, s.hasTargetMesh with
  | some b, true =>
      { s with building := some (updateBuildingRotation b
          (initialRotation + (currentAngle - initialDragAngle))) }
  | _, _ => s

/-- Central move drag-move at the editor level, with the same presence
guard (BuildingEditor.ts line 522). -/
def editorMoveDragMove (s : EditorState) (deltaX deltaZ : ℚ) : EditorState :=
  match s.building, s.hasTargetMesh with
  | some b, true =>
      { s with building := some { b with position := centerDragMove b.position deltaX deltaZ } }
  | _, _ => s

/-- The mesh transform read back by syncMeshWithBuilding: position,
yaw rotation and the horizontal scaling factors. -/
structure MeshTransform where
  posX : ℚ
  posZ : ℚ
  rotY : ℚ
  scalingX : ℚ
  scalingZ : ℚ
deriving DecidableEq, Repr

/-- syncMeshWithBuilding (main-viewport.tsx lines 383-398): after a
native gizmo drag the Building record receives the mesh position and
yaw, and width and length are the stored dimensions multiplied by the
mesh scaling factors, with no minimum-size clamp. -/
def syncMeshWithBuilding (b : Building) (m : MeshTransform) : Building :=
  { b with
    position := (m.posX, m.posZ)
    rotation := m.rotY
    width := b.width * m.scalingX
    length := b.length * m.scalingZ }

/-- MIN_RIDGE_HEIGHT of the pixel-mapped elevation view. -/
def MIN_RIDGE_HEIGHT : ℚ := 0

/-- MAX_RIDGE_HEIGHT of the pixel-mapped elevation view (3.75). -/
def MAX_RIDGE_HEIGHT : ℚ := 15 / 4

/-- MIN_VISUAL_HEIGHT of the pixel-mapped elevation view. -/
def MIN_VISUAL_HEIGHT : ℚ := 20

/-- MAX_VISUAL_HEIGHT of the pixel-mapped elevation view. -/
def MAX_VISUAL_HEIGHT : ℚ := 120

/-- heightChangePerPixel (main-viewport.tsx line 1389), including the
source guard that replaces a zero visual span by 1. -/
def heightChangePerPixel : ℚ :=
  let span := MAX_VISUAL_HEIGHT - MIN_VISUAL_HEIGHT
  (MAX_RIDGE_HEIGHT - MIN_RIDGE_HEIGHT) / (if span = 0 then 1 else span)

/-- handleMouseMove of the pixel-mapped elevation ridge drag
(main-viewport.tsx lines 1382-1397): the drag-start ridge height plus
the pixel delta scaled by heightChangePerPixel, clamped into
[MIN_RIDGE_HEIGHT, MAX_RIDGE_HEIGHT]. -/
def elevHandleMouseMove (initialRidgeHeight deltaY : ℚ) : ℚ :=
  let newRidgeHeight := initialRidgeHeight + deltaY * heightChangePerPixel
  max MIN_RIDGE_HEIGHT (min newRidgeHeight MAX_RIDGE_HEIGHT)

/-- moveHandler of the scene-based elevation roof drag
(elevation-viewport.tsx lines 264-270): Math.max(0.2, startHeight +
deltaY * 0.05) — clamped only from below. -/
def elevMoveHandler (startHeight deltaY : ℚ) : ℚ :=
  max (1 / 5) (startHeight + deltaY * (1 / 20))

/-- The maximum of the ridge-height slider of elevation-viewport.tsx
(the input range element has max 3). -/
def sliderMaxRidge : ℚ := 3

/-- Outcome of a placement-mode click: the committed Building and the
placement-mode flag afterwards. -/
structure PlacementResult where
  building : Building
  placementMode : Bool
deriving DecidableEq, Repr

/-- handlePointerDown of the current viewport iteration
(main-viewport.tsx lines 799-812): a placement click commits a Building
with the picked ground position, rotation 0, width 3, length 5, height 5
and the freshly generated id, then leaves placement mode. -/
def handlePlacementClick (currentType : RoofType) (pickedX pickedZ : ℚ)
    (freshId : String) : PlacementResult :=
  { building :=
      { id := freshId
        type := currentType
        position := (pickedX, pickedZ)
        rotation := 0
        width := 3
        length := 5
        height := 5
        ridgeHeight := if currentType = RoofType.dualPitch then some 1 else none
        ridgeOffset := if currentType = RoofType.dualPitch then some 0 else none }
    placementMode := false }

/-- handlePointerDown of the first viewport iteration (main-viewport.tsx
lines 337-350): identical except that the committed height is 2. -/
def handlePlacementClickV1 (currentType : RoofType) (pickedX pickedZ : ℚ)
    (freshId : String) : PlacementResult :=
  { building :=
      { id := freshId
        type := currentType
        position := (pickedX, pickedZ)
        rotation := 0
        width := 3
        length := 5
        height := 2
        ridgeHeight := if currentType = RoofType.dualPitch then some 1 else none
        ridgeOffset := if currentType = RoofType.dualPitch then some 0 else none }
    placementMode := false }

/-- A Partial Building value: each field is optionally present, and a
present field replaces the corresponding Building field on spread. -/
structure BuildingUpdates where
  id : Option String := none
  type : Option RoofType := none
  position : Option (ℚ × ℚ) := none
  rotation : Option ℚ := none
  width : Option ℚ := none
  length : Option ℚ := none
  height : Option ℚ := none
  ridgeHeight : Option ℚ := none
  ridgeOffset : Option ℚ := none
deriving DecidableEq, Repr

/-- The spread merge of updateBuilding: every field named in the updates
replaces the Building field, every absent field is kept. -/
def applyUpdates (b : Building) (u : BuildingUpdates) : Building :=
  { id := u.id.getD b.id
    type := u.type.getD b.type
    position := u.position.getD b.position
    rotation := u.rotation.getD b.rotation
    width := u.width.getD b.width
    length := u.length.getD b.length
    height := u.height.getD b.height
    ridgeHeight := match u.ridgeHeight with
      | some v => some v
      | none => b.ridgeHeight
    ridgeOffset := match u.ridgeOffset with
      | some v => some v
      | none => b.ridgeOffset }

/-- The store state of RoofBuilderContext.tsx. -/
structure RoofBuilderState where
  buildings : List Building
  selectedBuildingId : Option String
  placementMode : Bool
  currentRoofType : Option RoofType
deriving DecidableEq, Repr

/-- updateBuilding of RoofBuilderContext.tsx (lines 60-64): the
buildings list is mapped, replacing each building whose id matches by
its spread with the updates; no other state field is touched. -/
def updateBuilding (s : RoofBuilderState) (bid : String)
    (u : BuildingUpdates) : RoofBuilderState :=
  { s with buildings := s.buildings.map (fun b =>
      if b.id = bid then applyUpdates b u else b) }

/-- A Building of width 3 and length 5 as committed by placement. -/
def demoSyncBuilding : Building :=
  { id := "b1", type := RoofType.flat, position := (0, 0), rotation := 0,
    width := 3, length := 5, height := 5, ridgeHeight := none, ridgeOffset := none }

/-- A mesh transform whose horizontal scaling has shrunk to one tenth,
as the native scale gizmo can produce. -/
def demoShrinkTransform : MeshTransform :=
  { posX := 0, posZ := 0, rotY := 0, scalingX := 1 / 10, scalingZ := 1 / 10 }

/-- The sign of a rational is 0 exactly for 0. -/
lemma qsign_eq_zero_iff (x : ℚ) : qsign x = 0 ↔ x = 0 := by
  unfold qsign
  split_ifs with h1 h2
  · constructor
    · intro h
      exact absurd h one_ne_zero
    · intro h
      rw [h] at h1
      exact absurd h1 (lt_irrefl 0)
  · constructor
    · intro h
      norm_num at h
    · intro h
      rw [h] at h2
      exact absurd h2 (lt_irrefl 0)
  · constructor
    · intro _
      exact le_antisymm (not_lt.mp h1) (not_lt.mp h2)
    · intro _
      rfl

/-- Folding further drag-moves over a rotation drag state that has
already captured its initial angle keeps the rotation equal to the
initial rotation plus the angle swept since the initial drag angle. -/
lemma rotationDragMove_foldl_rotation (bs : List ℚ) :
    ∀ (t : RotationDragState) (prev : ℚ), t.isDragging = true →
      t.rotation = t.initialRotation + (prev - t.initialDragAngle) →
      (bs.foldl rotationDragMove t).rotation =
        t.initialRotation + (bs.getLastD prev - t.initialDragAngle) := by
  induction bs with
  | nil =>
      intro t prev _ hrot
      simpa [List.getLastD] using hrot
  | cons b bs ih =>
      intro t prev hd hrot
      have hmove : rotationDragMove t b =
          { t with rotation := t.initialRotation + (b - t.initialDragAngle) } := by
        simp [rotationDragMove, hd]
      rw [List.foldl_cons, hmove, List.getLastD_cons]
      exact ih _ b hd rfl

/-- Mapping the updateBuilding replacement over buildings whose ids all
differ from the target id changes nothing. -/
lemma map_updateBuilding_of_not_mem (l : List Building) (bid : String)
    (u : BuildingUpdates) (h : ∀ b ∈ l, b.id ≠ bid) :
    l.map (fun b => if b.id = bid then applyUpdates b u else b) = l := by
  induction l with
  | nil => rfl
  | cons b bs ih =>
      rw [List.map_cons, if_neg (h b (List.mem_cons_self b bs)),
        ih (fun b' hb' => h b' (List.mem_cons_of_mem b hb'))]

/-- C1 counterexample: the invariant does not hold across every code
path that writes width or length. syncMeshWithBuilding applied to a
building of width 3 with mesh scaling 1/10 writes width 3/10, strictly
below the minimum footprint size 1. -/
theorem syncMesh_min_size_counterexample :
    (syncMeshWithBuilding demoSyncBuilding demoShrinkTransform).width = 3 / 10 ∧
    ¬ (1 ≤ (syncMeshWithBuilding demoSyncBuilding demoShrinkTransform).width) := by
  constructor
  · norm_num [syncMeshWithBuilding, demoSyncBuilding, demoShrinkTransform]
  · norm_num [syncMeshWithBuilding, demoSyncBuilding, demoShrinkTransform]

/-- C1 (amended): every corner- and edge-handle resize drag-move writes
width and length clamped to at least 1, at every intermediate frame; the
amendment is that the scale-gizmo sync path (syncMeshWithBuilding) has
no such clamp and can store dimensions below 1. -/
theorem resize_drag_min_size (dX dZ cX cZ eX eZ w l : ℚ) :
    1 ≤ (cornerDragDims dX dZ cX cZ w l).1 ∧
    1 ≤ (cornerDragDims dX dZ cX cZ w l).2 ∧
    1 ≤ (edgeDragDimsX dX eX w l).1 ∧
    1 ≤ (edgeDragDimsX dX eX w l).2 ∧
    1 ≤ (edgeDragDimsZ dZ eZ w l).1 ∧
    1 ≤ (edgeDragDimsZ dZ eZ w l).2 :=
  ⟨le_max_left 1 _, le_max_left 1 _, le_max_left 1 _, le_max_left 1 _,
    le_max_left 1 _, le_max_left 1 _⟩

/-- C2 counterexample: the scene-based elevation roof-drag handler is
not clamped into range after any update — from ridge height 1, a drag of
80 pixels stores 5, above the slider maximum 3 (and also above the other
view maximum 3.75). -/
theorem elev_move_ridge_unclamped_counterexample :
    elevMoveHandler 1 80 = 5 ∧
    sliderMaxRidge < elevMoveHandler 1 80 ∧
    MAX_RIDGE_HEIGHT < elevMoveHandler 1 80 := by
  refine ⟨?_, ?_, ?_⟩ <;>
    norm_num [elevMoveHandler, sliderMaxRidge, MAX_RIDGE_HEIGHT]

/-- C2 (amended): the pixel-mapped elevation drag handler clamps the
stored ridge height into [MIN_RIDGE_HEIGHT, MAX_RIDGE_HEIGHT] = [0,
3.75] after every update, while the scene-based roof-drag handler clamps
only from below at 0.2; under both handlers, a height-space delta of
+2.0 from ridge height 1 yields exactly 3.0. -/
theorem ridge_update_clamping (r d : ℚ) :
    (MIN_RIDGE_HEIGHT ≤ elevHandleMouseMove r d ∧
      elevHandleMouseMove r d ≤ MAX_RIDGE_HEIGHT) ∧
    1 / 5 ≤ elevMoveHandler r d ∧
    elevHandleMouseMove 1 (160 / 3) = 3 ∧
    elevMoveHandler 1 40 = 3 := by
  refine ⟨⟨le_max_left _ _, ?_⟩, le_max_left _ _, ?_, ?_⟩
  · exact max_le (by norm_num [MIN_RIDGE_HEIGHT, MAX_RIDGE_HEIGHT])
      (min_le_right _ _)
  · norm_num [elevHandleMouseMove, heightChangePerPixel, MIN_RIDGE_HEIGHT,
      MAX_RIDGE_HEIGHT, MIN_VISUAL_HEIGHT, MAX_VISUAL_HEIGHT]
  · norm_num [elevMoveHandler]

/-- C4: for every resize drag-move and each affected axis, the corner
handler computes exactly the dimension the specification describes, and
the edge handler does so whenever the handle local coordinate is nonzero
(an edge handle always sits at half the footprint away from center, so
its local coordinate never vanishes in a drag). -/
theorem resize_axis_matches_spec (d h i : ℚ) :
    cornerResizeAxis d h i = specResizeAxis d h i ∧
    (h ≠ 0 → edgeResizeAxis d h i = specResizeAxis d h i) := by
  constructor
  · rfl
  · intro hne
    have hz : ¬ (qsign h = 0) := fun hq => hne ((qsign_eq_zero_iff h).mp hq)
    simp only [edgeResizeAxis, specResizeAxis, if_neg hz]

/-- C4 witness: the edge part of the resize formula at a concrete
nonzero handle coordinate. -/
theorem resize_axis_matches_spec_witness :
    ((1 : ℚ) ≠ 0) ∧ edgeResizeAxis 2 1 3 = specResizeAxis 2 1 3 :=
  ⟨by norm_num, (resize_axis_matches_spec 2 1 3).2 (by norm_num)⟩

/-- C5: dragging the midRight edge handle to local drag X 2.5 from
width 3 (handle at 1.5) gives width 5 with length 5 untouched; dragging
to local drag X 0.3 gives width max(1, 0.6) = 1 with length untouched;
in general an x-axis edge drag never changes a length that satisfies the
minimum-size invariant, and a z-axis edge drag never changes such a
width. -/
theorem edge_drag_scenarios :
    edgeDragDimsX (5 / 2) (3 / 2) 3 5 = (5, 5) ∧
    edgeDragDimsX (3 / 10) (3 / 2) 3 5 = (1, 5) ∧
    (∀ d h w l : ℚ, 1 ≤ l → (edgeDragDimsX d h w l).2 = l) ∧
    (∀ d h w l : ℚ, 1 ≤ w → (edgeDragDimsZ d h w l).1 = w) := by
  refine ⟨?_, ?_, ?_, ?_⟩
  · norm_num [edgeDragDimsX, edgeResizeAxis, qsign, abs_of_pos, Prod.ext_iff]
  · norm_num [edgeDragDimsX, edgeResizeAxis, qsign, abs_of_pos, Prod.ext_iff]
  · intro d h w l hl
    exact max_eq_right hl
  · intro d h w l hw
    exact max_eq_right hw

/-- C5 witness: an x-axis edge drag leaves a valid length unchanged at a
concrete input. -/
theorem edge_drag_scenarios_witness :
    ((1 : ℚ) ≤ 5) ∧ (edgeDragDimsX 2 1 3 5).2 = 5 :=
  ⟨by norm_num, edge_drag_scenarios.2.2.1 2 1 3 5 (by norm_num)⟩

/-- C6: an X-axis arrow handle drag with world delta (dx, dz) changes
the position by exactly (dx, 0), and a Z-axis drag by exactly (0, dz). -/
theorem arrow_move_axis_constraint (px pz dx dz : ℚ) :
    arrowDragMove Axis.x (px, pz) dx dz = (px + dx, pz) ∧
    arrowDragMove Axis.z (px, pz) dx dz = (px, pz + dz) := by
  constructor <;> simp [arrowDragMove]

/-- C7: a corner or edge resize drag-move write changes only width and
length of the Building record; rotation, position, id, type, height and
the ridge fields are all preserved. -/
theorem resize_preserves_rotation (b : Building) (axis : Axis)
    (dX dZ cX cZ eX eZ w l : ℚ) :
    ((cornerDragMoveBuilding b dX dZ cX cZ w l).rotation = b.rotation ∧
     (cornerDragMoveBuilding b dX dZ cX cZ w l).position = b.position ∧
     (cornerDragMoveBuilding b dX dZ cX cZ w l).id = b.id ∧
     (cornerDragMoveBuilding b dX dZ cX cZ w l).type = b.type ∧
     (cornerDragMoveBuilding b dX dZ cX cZ w l).height = b.height ∧
     (cornerDragMoveBuilding b dX dZ cX cZ w l).ridgeHeight = b.ridgeHeight ∧
     (cornerDragMoveBuilding b dX dZ cX cZ w l).ridgeOffset = b.ridgeOffset) ∧
    ((edgeDragMoveBuilding b axis dX dZ eX eZ w l).rotation = b.rotation ∧
     (edgeDragMoveBuilding b axis dX dZ eX eZ w l).position = b.position ∧
     (edgeDragMoveBuilding b axis dX dZ eX eZ w l).id = b.id ∧
     (edgeDragMoveBuilding b axis dX dZ eX eZ w l).type = b.type ∧
     (edgeDragMoveBuilding b axis dX dZ eX eZ w l).height = b.height ∧
     (edgeDragMoveBuilding b axis dX dZ eX eZ w l).ridgeHeight = b.ridgeHeight ∧
     (edgeDragMoveBuilding b axis dX dZ eX eZ w l).ridgeOffset = b.ridgeOffset) :=
  ⟨⟨rfl, rfl, rfl, rfl, rfl, rfl, rfl⟩, ⟨rfl, rfl, rfl, rfl, rfl, rfl, rfl⟩⟩

/-- C8: after detach has cleared the building and mesh references, every
drag-move handler of the editor is a silent no-op: it is a total
function (never throws) and returns the state unchanged, for the corner,
edge, rotation and central move controls alike. -/
theorem detached_drag_noop (s : EditorState) (axis : Axis)
    (dX dZ cX cZ eX eZ w l iR iA cA : ℚ) :
    editorCornerDragMove (detachEditor s) dX dZ cX cZ w l = detachEditor s ∧
    editorEdgeDragMove (detachEditor s) axis dX dZ eX eZ w l = detachEditor s ∧
    editorRotationDragMove (detachEditor s) iR iA cA = detachEditor s ∧
    editorMoveDragMove (detachEditor s) dX dZ = detachEditor s :=
  ⟨rfl, rfl, rfl, rfl⟩

/-- C3: during a rotate drag over pointer angles a, a2, ..., ak, the
rotation written on each drag-move is initialRotation + (currentAngle −
initialAngle), where the initial angle a is captured on the first
drag-move only; in particular the first drag-move leaves the rotation at
its drag-start value (no jump to the handle angle), and over the whole
drag the rotation changes by exactly the swept angle ak − a. -/
theorem rotation_drag_continuity (r a : ℚ) (rest : List ℚ) :
    (rotationAfterDrag r [a]).rotation = r ∧
    (rotationAfterDrag r (a :: rest)).rotation = r + (rest.getLastD a - a) := by
  have hstate : rotationDragMove (rotationDragStart r) a =
      { initialRotation := r, isDragging := true, initialDragAngle := a,
        rotation := r + (a - a) } := by
    simp [rotationDragMove, rotationDragStart]
  constructor
  · show (List.foldl rotationDragMove (rotationDragStart r) [a]).rotation = r
    rw [List.foldl_cons, List.foldl_nil, hstate]
    simp
  · show (List.foldl rotationDragMove (rotationDragStart r) (a :: rest)).rotation = _
    rw [List.foldl_cons, hstate]
    exact rotationDragMove_foldl_rotation rest _ a rfl rfl

/-- C9 counterexample: the placement handler of the first viewport
iteration commits height 2, not 5, for a flat-roof placement click. -/
theorem placement_v1_height_counterexample :
    (handlePlacementClickV1 RoofType.flat 0 0 "b1").building.height = 2 ∧
    (handlePlacementClickV1 RoofType.flat 0 0 "b1").building.height ≠ 5 := by
  constructor
  · rfl
  · norm_num [handlePlacementClickV1]

/-- C9 (amended): a placement-mode click for a flat-roof building
through the current handler commits a Building with exactly width 3,
length 5, height 5, rotation 0, the picked ground position and the fresh
id, and exits placement mode; the earlier iteration handler commits the
same record except with height 2. -/
theorem placement_commit_fields (x z : ℚ) (freshId : String) :
    ((handlePlacementClick RoofType.flat x z freshId).building =
      { id := freshId, type := RoofType.flat, position := (x, z), rotation := 0,
        width := 3, length := 5, height := 5,
        ridgeHeight := none, ridgeOffset := none } ∧
     (handlePlacementClick RoofType.flat x z freshId).placementMode = false) ∧
    ((handlePlacementClickV1 RoofType.flat x z freshId).building =
      { id := freshId, type := RoofType.flat, position := (x, z), rotation := 0,
        width := 3, length := 5, height := 2,
        ridgeHeight := none, ridgeOffset := none } ∧
     (handlePlacementClickV1 RoofType.flat x z freshId).placementMode = false) := by
  refine ⟨⟨?_, rfl⟩, ⟨?_, rfl⟩⟩
  · simp [handlePlacementClick]
  · simp [handlePlacementClickV1]

/-- C10: updateBuilding maps the collection, replacing exactly the
fields named in the updates on the building whose id matches, leaving
every other building unchanged and in order, leaving the collection
unchanged when no id matches, and never touching selectedBuildingId or
the other store fields. -/
theorem updateBuilding_frame (s : RoofBuilderState) (bid : String)
    (u : BuildingUpdates) :
    (updateBuilding s bid u).selectedBuildingId = s.selectedBuildingId ∧
    (updateBuilding s bid u).placementMode = s.placementMode ∧
    (updateBuilding s bid u).currentRoofType = s.currentRoofType ∧
    (∀ pre b post, s.buildings = pre ++ b :: post → b.id = bid →
      (∀ b' ∈ pre, b'.id ≠ bid) → (∀ b' ∈ post, b'.id ≠ bid) →
      (updateBuilding s bid u).buildings = pre ++ applyUpdates b u :: post) ∧
    ((∀ b' ∈ s.buildings, b'.id ≠ bid) →
      (updateBuilding s bid u).buildings = s.buildings) ∧
    (∀ b : Building,
      (u.id = none → (applyUpdates b u).id = b.id) ∧
      (u.type = none → (applyUpdates b u).type = b.type) ∧
      (u.position = none → (applyUpdates b u).position = b.position) ∧
      (u.rotation = none → (applyUpdates b u).rotation = b.rotation) ∧
      (u.width = none → (applyUpdates b u).width = b.width) ∧
      (u.length = none → (applyUpdates b u).length = b.length) ∧
      (u.height = none → (applyUpdates b u).height = b.height) ∧
      (u.ridgeHeight = none → (applyUpdates b u).ridgeHeight = b.ridgeHeight) ∧
      (u.ridgeOffset = none → (applyUpdates b u).ridgeOffset = b.ridgeOffset)) := by
  refine ⟨rfl, rfl, rfl, ?_, ?_, ?_⟩
  · intro pre b post hsplit hbid hpre hpost
    show s.buildings.map _ = _
    rw [hsplit, List.map_append, List.map_cons, if_pos hbid,
      map_updateBuilding_of_not_mem pre bid u hpre,
      map_updateBuilding_of_not_mem post bid u hpost]
  · intro h
    exact map_updateBuilding_of_not_mem s.buildings bid u h
  · intro b
    refine ⟨?_, ?_, ?_, ?_, ?_, ?_, ?_, ?_, ?_⟩ <;>
      · intro h
        simp [applyUpdates, h]

/-- The first demo building of the store, the target of the update. -/
def demoA : Building :=
  { id := "a", type := RoofType.flat, position := (0, 0), rotation := 0,
    width := 3, length := 5, height := 5, ridgeHeight := none, ridgeOffset := none }

/-- The second demo building of the store, untouched by the update. -/
def demoB : Building :=
  { id := "b", type := RoofType.dualPitch, position := (2, 2), rotation := 0,
    width := 3, length := 5, height := 5, ridgeHeight := some 1, ridgeOffset := some 0 }

/-- A demo store state holding the two demo buildings. -/
def demoState : RoofBuilderState :=
  { buildings := [demoA, demoB], selectedBuildingId := some "a",
    placementMode := false, currentRoofType := none }

/-- A demo update naming only the width field. -/
def demoUpdates : BuildingUpdates := { width := some 7 }

/-- C10 witness: the frame theorem applied to the two-building demo
store, updating the width of the first building only. -/
theorem updateBuilding_frame_witness :
    (updateBuilding demoState "a" demoUpdates).buildings =
      [] ++ applyUpdates demoA demoUpdates :: [demoB] :=
  (updateBuilding_frame demoState "a" demoUpdates).2.2.2.1 [] demoA [demoB]
    rfl rfl (by simp) (by simp [demoB])

end RoofBuilder
